import Mathlib

/-!
Shallow embedding of the card-memory-helper grid/lock/history core
(source file: the CardMemoryHelper React component).  JavaScript objects
with string keys preserve insertion order for keys such as "cell-0", so
Grid Store is modelled as an insertion-ordered association list and the
Lock Set as an insertion-ordered list of cell ids; spreading an object and
assigning a key updates in place when the key exists and appends
otherwise, and `delete` removes the key.
-/

/-- A catalog token: identity plus opaque visual tag (icon name, color). -/
structure CardIcon where
  id : String
  icon : String
  color : String
  deriving DecidableEq

/-- History entry kinds, the strings "add" / "remove" / "replace". -/
inductive ActionType where
  | add
  | remove
  | replace
  deriving DecidableEq

/-- One entry of the History Log, matching the HistoryAction interface. -/
structure HistoryAction where
  type : ActionType
  cellId : String
  card : CardIcon
  previousCard : Option CardIcon
  lockedCellId : Option String
  wasLocked : Option Bool
  deriving DecidableEq

/-- The fixed token catalog CARD_ICONS of the source, in order. -/
def CARD_ICONS : List CardIcon :=
  [ { id := "wine", icon := "Wine", color := "bg-red-500" },
    { id := "anchor", icon := "Anchor", color := "bg-pink-500" },
    { id := "music", icon := "Music", color := "bg-yellow-500" },
    { id := "ship", icon := "Ship", color := "bg-purple-600" },
    { id := "gem", icon := "Gem", color := "bg-green-500" },
    { id := "compass", icon := "Compass", color := "bg-orange-500" },
    { id := "search", icon := "Search", color := "bg-gradient-to-r from-fuchsia-500 to-cyan-500" },
    { id := "sparkles", icon := "Sparkles", color := "bg-gradient-to-r from-fuchsia-500 to-cyan-500" },
    { id := "sailboat", icon := "Ship", color := "bg-gradient-to-r from-fuchsia-500 to-cyan-500" } ]

/-- The whole component state: layout dimensions, Grid Store, Lock Set,
History Log, layout-warning flag, pending layout, drag ghost, click-mode
selection. -/
structure AppState where
  rows : Int
  cols : Int
  grid : List (String × CardIcon)
  lockedCells : List String
  history : List HistoryAction
  showWarning : Bool
  pendingLayout : Option (Int × Int)
  activeCard : Option CardIcon
  selectedCard : Option CardIcon
  deriving DecidableEq

/-- Initial state: useState(2), useState(4), empty stores. -/
def initState : AppState :=
  { rows := 2, cols := 4, grid := [], lockedCells := [], history := [],
    showWarning := false, pendingLayout := none, activeCard := none,
    selectedCard := none }

/-- Reading grid[cellId]: first (and only) binding of the key. -/
def lookupGrid : List (String × CardIcon) → String → Option CardIcon
  | [], _ => none
  | (k, v) :: rest, c => if k = c then some v else lookupGrid rest c

/-- Object spread with key assignment: update in place if the key exists,
append otherwise. -/
def setGrid : List (String × CardIcon) → String → CardIcon → List (String × CardIcon)
  | [], c, card => [(c, card)]
  | (k, v) :: rest, c, card =>
    if k = c then (c, card) :: rest else (k, v) :: setGrid rest c card

/-- Key deletion from the grid object. -/
def delGrid : List (String × CardIcon) → String → List (String × CardIcon)
  | [], _ => []
  | (k, v) :: rest, c =>
    if k = c then delGrid rest c else (k, v) :: delGrid rest c

/-- Setting lockedCells[cellId] = true. -/
def lockAdd (l : List String) (c : String) : List String :=
  if c ∈ l then l else l ++ [c]

/-- delete lockedCells[cellId]. -/
def lockDel : List String → String → List String
  | [], _ => []
  | x :: rest, c => if x = c then lockDel rest c else x :: lockDel rest c

/-- findMatchingCard: first cell in grid iteration order, other than
excludeCellId, holding a token of the given id and not currently locked. -/
def findMatchingCard (grid : List (String × CardIcon)) (locked : List String)
    (cardId excludeCellId : String) : Option String :=
  match grid with
  | [] => none
  | (cellId, cellCard) :: rest =>
    if cellId ≠ excludeCellId ∧ cellCard.id = cardId ∧ cellId ∉ locked then some cellId
    else findMatchingCard rest locked cardId excludeCellId

/-- findLockedMatchingCard: first cell in grid iteration order, other than
excludeCellId, holding a token of the given id and currently locked. -/
def findLockedMatchingCard (grid : List (String × CardIcon)) (locked : List String)
    (cardId excludeCellId : String) : Option String :=
  match grid with
  | [] => none
  | (cellId, cellCard) :: rest =>
    if cellId ≠ excludeCellId ∧ cellCard.id = cardId ∧ cellId ∈ locked then some cellId
    else findLockedMatchingCard rest locked cardId excludeCellId

/-- The scan condition of findMatchingCard, as a predicate on grid entries. -/
def unlockedMatch (locked : List String) (cardId excludeCellId : String)
    (p : String × CardIcon) : Prop :=
  p.1 ≠ excludeCellId ∧ p.2.id = cardId ∧ p.1 ∉ locked

/-- The scan condition of findLockedMatchingCard, as a predicate on grid entries. -/
def lockedMatch (locked : List String) (cardId excludeCellId : String)
    (p : String × CardIcon) : Prop :=
  p.1 ≠ excludeCellId ∧ p.2.id = cardId ∧ p.1 ∈ locked

/-- handleCardClick: toggle the click-mode selection. -/
def handleCardClick (card : CardIcon) (s : AppState) : AppState :=
  { s with selectedCard :=
      match s.selectedCard with
      | some prev => if prev.id = card.id then none else some card
      | none => some card }

/-- handleCellClick: click-to-place path of the Placement Engine. -/
def handleCellClick (cellId : String) (s : AppState) : AppState :=
  match s.selectedCard with
  | none => s
  | some selectedCard =>
    if cellId ∈ s.lockedCells then s
    else
      let previousCard := lookupGrid s.grid cellId
      let newGrid := setGrid s.grid cellId selectedCard
      if selectedCard.id = "lock" then
        { s with grid := newGrid,
                 lockedCells := lockAdd s.lockedCells cellId,
                 history := s.history ++
                   [{ type := if previousCard.isSome then ActionType.replace else ActionType.add,
                      cellId := cellId, card := selectedCard,
                      previousCard := previousCard, lockedCellId := none,
                      wasLocked := some false }],
                 selectedCard := none }
      else
        match findMatchingCard s.grid s.lockedCells selectedCard.id cellId with
        | some matchingCellId =>
          { s with grid := newGrid,
                   lockedCells := lockAdd (lockAdd s.lockedCells cellId) matchingCellId,
                   history := s.history ++
                     [{ type := if previousCard.isSome then ActionType.replace else ActionType.add,
                        cellId := cellId, card := selectedCard,
                        previousCard := previousCard,
                        lockedCellId := some matchingCellId,
                        wasLocked := some false }],
                   selectedCard := none }
        | none =>
          { s with grid := newGrid,
                   history := s.history ++
                     [{ type := if previousCard.isSome then ActionType.replace else ActionType.add,
                        cellId := cellId, card := selectedCard,
                        previousCard := previousCard, lockedCellId := none,
                        wasLocked := some false }],
                   selectedCard := none }

/-- handleDragStart: remember the dragged card, clear the selection. -/
def handleDragStart (activeId : String) (s : AppState) : AppState :=
  { s with activeCard := List.find? (fun c => c.id == activeId) CARD_ICONS,
           selectedCard := none }

/-- handleDragEnd: drag-release path of the Placement Engine. -/
def handleDragEnd (activeId : String) (overId : Option String) (s : AppState) : AppState :=
  match overId with
  | none => { s with activeCard := none }
  | some cellId =>
    match List.find? (fun c => c.id == activeId) CARD_ICONS with
    | none => { s with activeCard := none }
    | some card =>
      if cellId ∈ s.lockedCells then { s with activeCard := none }
      else
        let previousCard := lookupGrid s.grid cellId
        let newGrid := setGrid s.grid cellId card
        if card.id = "lock" then
          { s with grid := newGrid,
                   lockedCells := lockAdd s.lockedCells cellId,
                   history := s.history ++
                     [{ type := if previousCard.isSome then ActionType.replace else ActionType.add,
                        cellId := cellId, card := card,
                        previousCard := previousCard, lockedCellId := none,
                        wasLocked := some false }],
                   activeCard := none }
        else
          match findMatchingCard s.grid s.lockedCells card.id cellId with
          | some matchingCellId =>
            { s with grid := newGrid,
                     lockedCells := lockAdd (lockAdd s.lockedCells cellId) matchingCellId,
                     history := s.history ++
                       [{ type := if previousCard.isSome then ActionType.replace else ActionType.add,
                          cellId := cellId, card := card,
                          previousCard := previousCard,
                          lockedCellId := some matchingCellId,
                          wasLocked := some false }],
                     activeCard := none }
          | none =>
            { s with grid := newGrid,
                     history := s.history ++
                       [{ type := if previousCard.isSome then ActionType.replace else ActionType.add,
                          cellId := cellId, card := card,
                          previousCard := previousCard, lockedCellId := none,
                          wasLocked := some false }],
                     activeCard := none }

/-- handleRemoveCard: remove the occupant of an unlocked occupied cell,
unlocking the first locked cell holding the same token id. -/
def handleRemoveCard (cellId : String) (s : AppState) : AppState :=
  match lookupGrid s.grid cellId with
  | none => s
  | some card =>
    if cellId ∈ s.lockedCells then s
    else
      let lockedMatchingCellId := findLockedMatchingCard s.grid s.lockedCells card.id cellId
      { s with grid := delGrid s.grid cellId,
               lockedCells :=
                 match lockedMatchingCellId with
                 | some m => lockDel s.lockedCells m
                 | none => s.lockedCells,
               history := s.history ++
                 [{ type := ActionType.remove, cellId := cellId, card := card,
                    previousCard := none, lockedCellId := lockedMatchingCellId,
                    wasLocked := some false }] }

/-- handleDoubleClick: unlock a locked cell, and unless its occupant has
id "lock", also the first locked cell holding the same token id.  Not
recorded in the History Log. -/
def handleDoubleClick (cellId : String) (s : AppState) : AppState :=
  if cellId ∈ s.lockedCells then
    let newLocked0 := lockDel s.lockedCells cellId
    { s with lockedCells :=
        match lookupGrid s.grid cellId with
        | some card =>
          if card.id = "lock" then newLocked0
          else
            match findLockedMatchingCard s.grid s.lockedCells card.id cellId with
            | some m => lockDel newLocked0 m
            | none => newLocked0
        | none => newLocked0 }
  else s

/-- handleUndo: pop the last history entry and apply its inverse. -/
def handleUndo (s : AppState) : AppState :=
  match s.history.getLast? with
  | none => s
  | some lastAction =>
    let popped := s.history.dropLast
    match lastAction.type with
    | ActionType.add =>
      { s with grid := delGrid s.grid lastAction.cellId,
               lockedCells :=
                 match lastAction.lockedCellId with
                 | some partner => lockDel (lockDel s.lockedCells lastAction.cellId) partner
                 | none =>
                   if lastAction.card.id = "lock" ∨ lastAction.wasLocked ≠ none then
                     lockDel s.lockedCells lastAction.cellId
                   else s.lockedCells,
               history := popped }
    | ActionType.remove =>
      { s with grid := setGrid s.grid lastAction.cellId lastAction.card,
               lockedCells :=
                 if lastAction.wasLocked = some true then
                   lockAdd s.lockedCells lastAction.cellId
                 else s.lockedCells,
               history := popped }
    | ActionType.replace =>
      match lastAction.previousCard with
      | some prev =>
        { s with grid := setGrid s.grid lastAction.cellId prev,
                 lockedCells :=
                   match lastAction.lockedCellId with
                   | some partner => lockDel (lockDel s.lockedCells lastAction.cellId) partner
                   | none =>
                     if lastAction.card.id = "lock" ∨ lastAction.wasLocked ≠ none then
                       lockDel s.lockedCells lastAction.cellId
                     else s.lockedCells,
                 history := popped }
      | none => { s with history := popped }

/-- handleReset: clear Grid Store, Lock Set, History Log, selection. -/
def handleReset (s : AppState) : AppState :=
  { s with grid := [], lockedCells := [], history := [], selectedCard := none }

/-- handleLayoutChange: stage as pending when the grid is non-empty,
apply immediately otherwise. -/
def handleLayoutChange (newRows newCols : Int) (s : AppState) : AppState :=
  if 0 < s.grid.length then
    { s with showWarning := true, pendingLayout := some (newRows, newCols) }
  else
    { s with rows := newRows, cols := newCols }

/-- confirmLayoutChange: apply the pending layout and clear all three
stores; always dismiss the warning and the pending layout. -/
def confirmLayoutChange (s : AppState) : AppState :=
  match s.pendingLayout with
  | some p =>
    { s with rows := p.1, cols := p.2, grid := [], lockedCells := [],
             history := [], selectedCard := none, showWarning := false,
             pendingLayout := none }
  | none => { s with showWarning := false, pendingLayout := none }

/-- Cancelling the layout warning dialog. -/
def cancelLayoutChange (s : AppState) : AppState :=
  { s with showWarning := false, pendingLayout := none }

/-- Spec-level place(cell, token): select the token, then click the cell. -/
def place (cellId : String) (card : CardIcon) (s : AppState) : AppState :=
  handleCellClick cellId { s with selectedCard := some card }

/-- The public operations callable from the presentation layer. -/
inductive Op where
  | selectCard (card : CardIcon)
  | clickCell (cellId : String)
  | dragStart (activeId : String)
  | dragEnd (activeId : String) (overId : Option String)
  | removeCard (cellId : String)
  | doubleClick (cellId : String)
  | undo
  | reset
  | layoutChange (r c : Int)
  | confirmLayout
  | cancelLayout

/-- Dispatch one public operation. -/
def applyOp : Op → AppState → AppState
  | Op.selectCard card, s => handleCardClick card s
  | Op.clickCell cellId, s => handleCellClick cellId s
  | Op.dragStart activeId, s => handleDragStart activeId s
  | Op.dragEnd activeId overId, s => handleDragEnd activeId overId s
  | Op.removeCard cellId, s => handleRemoveCard cellId s
  | Op.doubleClick cellId, s => handleDoubleClick cellId s
  | Op.undo, s => handleUndo s
  | Op.reset, s => handleReset s
  | Op.layoutChange r c, s => handleLayoutChange r c s
  | Op.confirmLayout, s => confirmLayoutChange s
  | Op.cancelLayout, s => cancelLayoutChange s

/-- Run a sequence of public operations. -/
def run (ops : List Op) (s : AppState) : AppState :=
  ops.foldl (fun t op => applyOp op t) s

/-- A state is reachable when some operation sequence produces it from
the initial state. -/
def Reachable (s : AppState) : Prop :=
  ∃ ops : List Op, run ops initState = s

/-- The (Grid Store, Lock Set, History Log) triple of a state. -/
def coreOf (s : AppState) : List (String × CardIcon) × List String × List HistoryAction :=
  (s.grid, s.lockedCells, s.history)

/-! ## Basic lemmas about the store primitives -/

theorem lookupGrid_setGrid (g : List (String × CardIcon)) (c : String) (v : CardIcon)
    (x : String) :
    lookupGrid (setGrid g c v) x = if x = c then some v else lookupGrid g x := by
  induction g with
  | nil =>
    simp only [setGrid, lookupGrid]
    by_cases h : c = x
    · rw [if_pos h, if_pos h.symm]
    · rw [if_neg h, if_neg (fun hh => h hh.symm)]
  | cons p rest ih =>
    obtain ⟨k, w⟩ := p
    by_cases hk : k = c
    · subst hk
      simp only [setGrid, if_pos rfl, lookupGrid]
      by_cases hx : k = x
      · rw [if_pos hx, if_pos hx.symm]
      · rw [if_neg hx, if_neg (fun hh => hx hh.symm), if_neg hx]
    · simp only [setGrid, if_neg hk, lookupGrid]
      by_cases hx : k = x
      · subst hx
        rw [if_pos rfl, if_neg (fun hh => hk hh), if_pos rfl]
      · rw [if_neg hx, if_neg hx, ih]

theorem lookupGrid_delGrid (g : List (String × CardIcon)) (c x : String) :
    lookupGrid (delGrid g c) x = if x = c then none else lookupGrid g x := by
  induction g with
  | nil =>
    simp only [delGrid, lookupGrid]
    by_cases h : x = c
    · rw [if_pos h]
    · rw [if_neg h]
  | cons p rest ih =>
    obtain ⟨k, w⟩ := p
    by_cases hk : k = c
    · subst hk
      simp only [delGrid, eq_self_iff_true, if_true, lookupGrid, ih]
      by_cases hx : x = k
      · rw [if_pos hx, if_pos hx]
      · rw [if_neg hx, if_neg hx, if_neg (fun hh => hx hh.symm)]
    · simp only [delGrid, if_neg hk, lookupGrid]
      by_cases hx : k = x
      · subst hx
        rw [if_pos rfl, if_neg (fun hh : k = c => hk hh), if_pos rfl]
      · rw [if_neg hx, if_neg hx, ih]

theorem mem_lockDel (l : List String) (c x : String) :
    x ∈ lockDel l c ↔ x ∈ l ∧ x ≠ c := by
  induction l with
  | nil => simp [lockDel]
  | cons y rest ih =>
    by_cases hy : y = c
    · subst hy
      simp only [lockDel, eq_self_iff_true, if_true, ih, List.mem_cons]
      constructor
      · rintro ⟨h1, h2⟩
        exact ⟨Or.inr h1, h2⟩
      · rintro ⟨h1, h2⟩
        rcases h1 with rfl | h1
        · exact absurd rfl h2
        · exact ⟨h1, h2⟩
    · simp only [lockDel, if_neg hy, List.mem_cons, ih]
      constructor
      · intro h
        rcases h with rfl | ⟨h1, h2⟩
        · exact ⟨Or.inl rfl, hy⟩
        · exact ⟨Or.inr h1, h2⟩
      · rintro ⟨h1, h2⟩
        rcases h1 with rfl | h1
        · exact Or.inl rfl
        · exact Or.inr ⟨h1, h2⟩

theorem mem_lockAdd (l : List String) (c x : String) :
    x ∈ lockAdd l c ↔ x ∈ l ∨ x = c := by
  unfold lockAdd
  by_cases h : c ∈ l
  · rw [if_pos h]
    constructor
    · exact Or.inl
    · rintro (hx | rfl)
      · exact hx
      · exact h
  · rw [if_neg h]
    simp

theorem lookupGrid_isSome_of_mem (g : List (String × CardIcon)) (m : String)
    (v : CardIcon) (h : (m, v) ∈ g) : (lookupGrid g m).isSome = true := by
  induction g with
  | nil => simp at h
  | cons p rest ih =>
    obtain ⟨k, w⟩ := p
    by_cases hk : k = m
    · simp [lookupGrid, hk]
    · rcases List.mem_cons.mp h with heq | htail
      · exact absurd (congrArg Prod.fst heq).symm hk
      · simpa [lookupGrid, hk] using ih htail

theorem findMatchingCard_mem (g : List (String × CardIcon)) (l : List String)
    (i ex m : String) (h : findMatchingCard g l i ex = some m) :
    ∃ v, (m, v) ∈ g := by
  induction g with
  | nil => simp [findMatchingCard] at h
  | cons p rest ih =>
    obtain ⟨k, w⟩ := p
    by_cases hc : k ≠ ex ∧ w.id = i ∧ k ∉ l
    · rw [findMatchingCard, if_pos hc] at h
      obtain rfl := Option.some.inj h
      exact ⟨w, List.mem_cons_self _ _⟩
    · rw [findMatchingCard, if_neg hc] at h
      obtain ⟨v, hv⟩ := ih h
      exact ⟨v, List.mem_cons_of_mem _ hv⟩

theorem findMatchingCard_eq_none_iff (g : List (String × CardIcon)) (l : List String)
    (i ex : String) :
    findMatchingCard g l i ex = none ↔ ∀ p ∈ g, ¬ unlockedMatch l i ex p := by
  induction g with
  | nil => simp [findMatchingCard]
  | cons p rest ih =>
    obtain ⟨k, w⟩ := p
    by_cases hc : k ≠ ex ∧ w.id = i ∧ k ∉ l
    · rw [findMatchingCard, if_pos hc]
      constructor
      · intro h
        exact absurd h (by simp)
      · intro h
        exact absurd hc (h (k, w) (List.mem_cons_self _ _))
    · rw [findMatchingCard, if_neg hc, ih]
      constructor
      · intro h q hq
        rcases List.mem_cons.mp hq with rfl | hq2
        · exact hc
        · exact h q hq2
      · intro h q hq
        exact h q (List.mem_cons_of_mem _ hq)

theorem findMatchingCard_first (g : List (String × CardIcon)) (l : List String)
    (i ex m : String) (h : findMatchingCard g l i ex = some m) :
    ∃ pre v post, g = pre ++ (m, v) :: post ∧ unlockedMatch l i ex (m, v) ∧
      ∀ p ∈ pre, ¬ unlockedMatch l i ex p := by
  induction g with
  | nil => simp [findMatchingCard] at h
  | cons p rest ih =>
    obtain ⟨k, w⟩ := p
    by_cases hc : k ≠ ex ∧ w.id = i ∧ k ∉ l
    · rw [findMatchingCard, if_pos hc] at h
      obtain rfl := Option.some.inj h
      exact ⟨[], w, rest, rfl, hc, by simp⟩
    · rw [findMatchingCard, if_neg hc] at h
      obtain ⟨pre, v, post, hg, hm, hpre⟩ := ih h
      refine ⟨(k, w) :: pre, v, post, by rw [hg]; rfl, hm, ?_⟩
      intro q hq
      rcases List.mem_cons.mp hq with rfl | hq2
      · exact hc
      · exact hpre q hq2

theorem findLockedMatchingCard_mem (g : List (String × CardIcon)) (l : List String)
    (i ex m : String) (h : findLockedMatchingCard g l i ex = some m) :
    ∃ v, (m, v) ∈ g := by
  induction g with
  | nil => simp [findLockedMatchingCard] at h
  | cons p rest ih =>
    obtain ⟨k, w⟩ := p
    by_cases hc : k ≠ ex ∧ w.id = i ∧ k ∈ l
    · rw [findLockedMatchingCard, if_pos hc] at h
      obtain rfl := Option.some.inj h
      exact ⟨w, List.mem_cons_self _ _⟩
    · rw [findLockedMatchingCard, if_neg hc] at h
      obtain ⟨v, hv⟩ := ih h
      exact ⟨v, List.mem_cons_of_mem _ hv⟩

theorem findLockedMatchingCard_eq_none_iff (g : List (String × CardIcon))
    (l : List String) (i ex : String) :
    findLockedMatchingCard g l i ex = none ↔ ∀ p ∈ g, ¬ lockedMatch l i ex p := by
  induction g with
  | nil => simp [findLockedMatchingCard]
  | cons p rest ih =>
    obtain ⟨k, w⟩ := p
    by_cases hc : k ≠ ex ∧ w.id = i ∧ k ∈ l
    · rw [findLockedMatchingCard, if_pos hc]
      constructor
      · intro h
        exact absurd h (by simp)
      · intro h
        exact absurd hc (h (k, w) (List.mem_cons_self _ _))
    · rw [findLockedMatchingCard, if_neg hc, ih]
      constructor
      · intro h q hq
        rcases List.mem_cons.mp hq with rfl | hq2
        · exact hc
        · exact h q hq2
      · intro h q hq
        exact h q (List.mem_cons_of_mem _ hq)

theorem findLockedMatchingCard_first (g : List (String × CardIcon)) (l : List String)
    (i ex m : String) (h : findLockedMatchingCard g l i ex = some m) :
    ∃ pre v post, g = pre ++ (m, v) :: post ∧ lockedMatch l i ex (m, v) ∧
      ∀ p ∈ pre, ¬ lockedMatch l i ex p := by
  induction g with
  | nil => simp [findLockedMatchingCard] at h
  | cons p rest ih =>
    obtain ⟨k, w⟩ := p
    by_cases hc : k ≠ ex ∧ w.id = i ∧ k ∈ l
    · rw [findLockedMatchingCard, if_pos hc] at h
      obtain rfl := Option.some.inj h
      exact ⟨[], w, rest, rfl, hc, by simp⟩
    · rw [findLockedMatchingCard, if_neg hc] at h
      obtain ⟨pre, v, post, hg, hm, hpre⟩ := ih h
      refine ⟨(k, w) :: pre, v, post, by rw [hg]; rfl, hm, ?_⟩
      intro q hq
      rcases List.mem_cons.mp hq with rfl | hq2
      · exact hc
      · exact hpre q hq2

theorem mem_of_mem_dropLast {α : Type} {l : List α} {a : α}
    (h : a ∈ l.dropLast) : a ∈ l :=
  List.mem_of_mem_take (List.dropLast_eq_take l ▸ h)

theorem mem_of_getLast?_eq_some {α : Type} {l : List α} {a : α}
    (h : l.getLast? = some a) : a ∈ l :=
  List.mem_of_mem_getLast? h

/-! ## Concrete states used as witnesses and counterexamples -/

/-- The first catalog token (id "wine"). -/
def wineCard : CardIcon := { id := "wine", icon := "Wine", color := "bg-red-500" }

/-- One wine token placed on cell-0. -/
def trace1 : AppState := place "cell-0" wineCard initState

/-- A second wine token on cell-1: the pair cell-0 / cell-1 is locked. -/
def trace2 : AppState := place "cell-1" wineCard trace1

/-- A third wine token on cell-2: no unlocked match, so cell-2 stays unlocked. -/
def trace3 : AppState := place "cell-2" wineCard trace2

/-- Removing the unlocked cell-2 also unlocks cell-0, the first locked
cell holding a wine token. -/
def trace4 : AppState := handleRemoveCard "cell-2" trace3

/-- Undoing the remove and then the third place. -/
def trace5 : AppState := handleUndo (handleUndo trace4)

/-- The operation sequence that produces trace4 through the public
operation dispatcher. -/
def cexOps : List Op :=
  [Op.selectCard wineCard, Op.clickCell "cell-0",
   Op.selectCard wineCard, Op.clickCell "cell-1",
   Op.selectCard wineCard, Op.clickCell "cell-2",
   Op.removeCard "cell-2"]

/-- The token id occupying a cell, when the cell is occupied. -/
def cellTokenId (s : AppState) (c : String) : Option String :=
  (lookupGrid s.grid c).map (fun card => card.id)

/-- Pairing symmetry as the spec states it: every locked cell is occupied
by the lock token, or some other locked cell holds a token of the same id. -/
def pairingInvariant (s : AppState) : Prop :=
  ∀ c ∈ s.lockedCells,
    cellTokenId s c = some "lock" ∨
    ∃ c2 ∈ s.lockedCells, c2 ≠ c ∧ (cellTokenId s c).isSome = true ∧
      cellTokenId s c2 = cellTokenId s c

instance (s : AppState) : Decidable (pairingInvariant s) := by
  unfold pairingInvariant
  infer_instance

/-! ## Claim theorems: error handling and layout -/

/-- C4: on a locked cell, both place and remove are complete no-ops: the
Grid Store, the Lock Set and the History Log are unchanged and no history
entry is appended (remove leaves the whole state untouched). -/
theorem locked_cell_place_remove_noop (s : AppState) (cellId : String) (card : CardIcon)
    (h : cellId ∈ s.lockedCells) :
    handleRemoveCard cellId s = s ∧
    (place cellId card s).grid = s.grid ∧
    (place cellId card s).lockedCells = s.lockedCells ∧
    (place cellId card s).history = s.history := by
  refine ⟨?_, ?_, ?_, ?_⟩
  · cases hcard : lookupGrid s.grid cellId with
    | none => simp [handleRemoveCard, hcard]
    | some card2 => simp [handleRemoveCard, hcard, h]
  all_goals simp [place, handleCellClick, h]

theorem locked_cell_place_remove_noop_witness :
    handleRemoveCard "cell-0" trace2 = trace2 ∧
    (place "cell-0" wineCard trace2).grid = trace2.grid ∧
    (place "cell-0" wineCard trace2).lockedCells = trace2.lockedCells ∧
    (place "cell-0" wineCard trace2).history = trace2.history :=
  locked_cell_place_remove_noop trace2 "cell-0" wineCard (by decide)

/-- C10: remove on a cell with no occupant leaves the entire state
unchanged: no grid, lock or history modification. -/
theorem remove_unoccupied_noop (s : AppState) (cellId : String)
    (h : lookupGrid s.grid cellId = none) :
    handleRemoveCard cellId s = s := by
  simp [handleRemoveCard, h]

theorem remove_unoccupied_noop_witness :
    handleRemoveCard "cell-7" trace2 = trace2 :=
  remove_unoccupied_noop trace2 "cell-7" (by decide)

/-- C5 counterexample: the token catalog CARD_ICONS contains no token
whose id is "lock", so it has no distinguished lock token. -/
theorem catalog_has_no_lock_token : ¬ ∃ c, c ∈ CARD_ICONS ∧ c.id = "lock" := by
  decide

/-- C5 amended: the catalog has no lock token, but the placement engine
special-cases tokens with id "lock": placing one on an unlocked cell
locks that cell immediately, with no match search influencing the result
and no partner cell in the appended history entry. -/
theorem place_lock_token_locks_immediately (s : AppState) (cellId : String)
    (card : CardIcon) (h1 : cellId ∉ s.lockedCells) (h2 : card.id = "lock") :
    (∀ c ∈ CARD_ICONS, c.id ≠ "lock") ∧
    (place cellId card s).grid = setGrid s.grid cellId card ∧
    (place cellId card s).lockedCells = lockAdd s.lockedCells cellId ∧
    cellId ∈ (place cellId card s).lockedCells ∧
    (place cellId card s).history = s.history ++
      [{ type := if (lookupGrid s.grid cellId).isSome then ActionType.replace
                 else ActionType.add,
         cellId := cellId, card := card, previousCard := lookupGrid s.grid cellId,
         lockedCellId := none, wasLocked := some false }] := by
  refine ⟨by decide, ?_, ?_, ?_, ?_⟩
  all_goals simp [place, handleCellClick, h1, h2, mem_lockAdd]

theorem place_lock_token_locks_immediately_witness :
    "cell-3" ∈ (place "cell-3" { id := "lock", icon := "Lock", color := "" } initState).lockedCells :=
  (place_lock_token_locks_immediately initState "cell-3"
    { id := "lock", icon := "Lock", color := "" } (by decide) (by decide)).2.2.2.1

/-- C6 counterexample: setLayout does not clamp to the range 1..10:
requesting 15 rows on an empty grid yields 15 rows, not 10. -/
theorem layout_out_of_range_not_clamped :
    (handleLayoutChange 15 4 initState).rows = 15 ∧
    ¬ (handleLayoutChange 15 4 initState).rows ≤ 10 := by
  decide

/-- C6 amended: setLayout applies or stages the requested dimensions
exactly as given, with no coercion into the range 1..10: on an empty grid
they are applied verbatim, on a non-empty grid they are staged verbatim. -/
theorem layout_dimensions_pass_through (r c : Int) (s : AppState) :
    (s.grid = [] →
      (handleLayoutChange r c s).rows = r ∧ (handleLayoutChange r c s).cols = c) ∧
    (s.grid ≠ [] →
      (handleLayoutChange r c s).rows = s.rows ∧
      (handleLayoutChange r c s).cols = s.cols ∧
      (handleLayoutChange r c s).pendingLayout = some (r, c)) := by
  constructor
  · intro h
    simp [handleLayoutChange, h]
  · intro h
    have hlen : 0 < s.grid.length := List.length_pos.mpr h
    simp [handleLayoutChange, hlen]

theorem layout_dimensions_pass_through_witness :
    ((handleLayoutChange 15 4 initState).rows = 15 ∧
      (handleLayoutChange 15 4 initState).cols = 4) ∧
    ((handleLayoutChange 0 (-3) trace1).rows = trace1.rows ∧
      (handleLayoutChange 0 (-3) trace1).cols = trace1.cols ∧
      (handleLayoutChange 0 (-3) trace1).pendingLayout = some (0, -3)) :=
  ⟨(layout_dimensions_pass_through 15 4 initState).1 rfl,
   (layout_dimensions_pass_through 0 (-3) trace1).2 (by decide)⟩

/-- C7: with an empty Grid Store, setLayout applies the new dimensions
immediately and stages nothing; with a non-empty Grid Store it only
stages them as pending, and confirming applies the dimensions and clears
Grid Store, Lock Set and History Log together. -/
theorem layout_staging_and_confirm (r c : Int) (s : AppState) :
    (s.grid = [] →
      (handleLayoutChange r c s).rows = r ∧
      (handleLayoutChange r c s).cols = c ∧
      (handleLayoutChange r c s).pendingLayout = s.pendingLayout ∧
      (handleLayoutChange r c s).grid = s.grid ∧
      (handleLayoutChange r c s).lockedCells = s.lockedCells ∧
      (handleLayoutChange r c s).history = s.history) ∧
    (s.grid ≠ [] →
      (handleLayoutChange r c s).rows = s.rows ∧
      (handleLayoutChange r c s).cols = s.cols ∧
      (handleLayoutChange r c s).grid = s.grid ∧
      (handleLayoutChange r c s).lockedCells = s.lockedCells ∧
      (handleLayoutChange r c s).history = s.history ∧
      (handleLayoutChange r c s).pendingLayout = some (r, c) ∧
      (confirmLayoutChange (handleLayoutChange r c s)).rows = r ∧
      (confirmLayoutChange (handleLayoutChange r c s)).cols = c ∧
      (confirmLayoutChange (handleLayoutChange r c s)).grid = [] ∧
      (confirmLayoutChange (handleLayoutChange r c s)).lockedCells = [] ∧
      (confirmLayoutChange (handleLayoutChange r c s)).history = []) := by
  constructor
  · intro h
    simp [handleLayoutChange, h]
  · intro h
    have hlen : 0 < s.grid.length := List.length_pos.mpr h
    simp [handleLayoutChange, confirmLayoutChange, hlen]

theorem layout_staging_and_confirm_witness :
    ((handleLayoutChange 3 5 initState).rows = 3 ∧
      (handleLayoutChange 3 5 initState).cols = 5 ∧
      (handleLayoutChange 3 5 initState).pendingLayout = initState.pendingLayout ∧
      (handleLayoutChange 3 5 initState).grid = initState.grid ∧
      (handleLayoutChange 3 5 initState).lockedCells = initState.lockedCells ∧
      (handleLayoutChange 3 5 initState).history = initState.history) ∧
    ((confirmLayoutChange (handleLayoutChange 3 5 trace2)).rows = 3 ∧
      (confirmLayoutChange (handleLayoutChange 3 5 trace2)).grid = [] ∧
      (confirmLayoutChange (handleLayoutChange 3 5 trace2)).lockedCells = [] ∧
      (confirmLayoutChange (handleLayoutChange 3 5 trace2)).history = []) :=
  ⟨(layout_staging_and_confirm 3 5 initState).1 rfl,
   ⟨((layout_staging_and_confirm 3 5 trace2).2 (by decide)).2.2.2.2.2.2.1,
    ((layout_staging_and_confirm 3 5 trace2).2 (by decide)).2.2.2.2.2.2.2.2.1,
    ((layout_staging_and_confirm 3 5 trace2).2 (by decide)).2.2.2.2.2.2.2.2.2.1,
    ((layout_staging_and_confirm 3 5 trace2).2 (by decide)).2.2.2.2.2.2.2.2.2.2⟩⟩

/-! ## Claim theorems: undo and the pairing invariant -/

/-- C1 evaluated at the failing input: after placing wine on cell-0,
cell-1 (locking the pair) and cell-2, removing cell-2 unlocks cell-0 and
records cell-0 as the partner in the remove entry; two undos restore the
Grid Store and the History Log but leave cell-0 unlocked, so the Lock Set
is not restored. -/
theorem undo_remove_does_not_restore_partner_lock :
    Option.bind trace4.history.getLast? (fun e => e.lockedCellId) = some "cell-0" ∧
    trace5.grid = trace2.grid ∧
    trace5.history = trace2.history ∧
    "cell-0" ∈ trace2.lockedCells ∧
    "cell-0" ∉ trace5.lockedCells := by
  decide

/-- C2 counterexample: the state reached by placing wine on cell-0,
cell-1 and cell-2 and then removing cell-2 is reachable through the
public operations yet violates pairing symmetry: cell-1 is locked,
occupied by wine, and no other locked cell holds a wine token. -/
theorem pairing_symmetry_violated :
    run cexOps initState = trace4 ∧
    "cell-1" ∈ trace4.lockedCells ∧
    ¬ pairingInvariant trace4 := by
  refine ⟨by decide, by decide, by decide⟩

/-! ## Claim theorems: placement matching, toggle-lock, input parity -/

/-- C3: placing a non-lock token on an unlocked cell scans the Grid Store
in iteration order for the first other occupied, currently-unlocked cell
holding a token with the same id; when one exists both cells become
locked and it is recorded as the history entry's partner, and when none
exists no cell becomes locked and no partner is recorded. -/
theorem place_matching_pair_locking (s : AppState) (cellId : String) (card : CardIcon)
    (h1 : cellId ∉ s.lockedCells) (h2 : card.id ≠ "lock") :
    (findMatchingCard s.grid s.lockedCells card.id cellId = none →
      (∀ p ∈ s.grid, ¬ unlockedMatch s.lockedCells card.id cellId p) ∧
      (place cellId card s).lockedCells = s.lockedCells ∧
      (place cellId card s).grid = setGrid s.grid cellId card ∧
      (place cellId card s).history = s.history ++
        [{ type := if (lookupGrid s.grid cellId).isSome then ActionType.replace
                   else ActionType.add,
           cellId := cellId, card := card, previousCard := lookupGrid s.grid cellId,
           lockedCellId := none, wasLocked := some false }]) ∧
    (∀ m, findMatchingCard s.grid s.lockedCells card.id cellId = some m →
      (∃ pre v post, s.grid = pre ++ (m, v) :: post ∧
        unlockedMatch s.lockedCells card.id cellId (m, v) ∧
        ∀ p ∈ pre, ¬ unlockedMatch s.lockedCells card.id cellId p) ∧
      cellId ∈ (place cellId card s).lockedCells ∧
      m ∈ (place cellId card s).lockedCells ∧
      (place cellId card s).lockedCells = lockAdd (lockAdd s.lockedCells cellId) m ∧
      (place cellId card s).grid = setGrid s.grid cellId card ∧
      (place cellId card s).history = s.history ++
        [{ type := if (lookupGrid s.grid cellId).isSome then ActionType.replace
                   else ActionType.add,
           cellId := cellId, card := card, previousCard := lookupGrid s.grid cellId,
           lockedCellId := some m, wasLocked := some false }]) := by
  constructor
  · intro hm
    refine ⟨(findMatchingCard_eq_none_iff s.grid s.lockedCells card.id cellId).mp hm,
      ?_, ?_, ?_⟩
    all_goals simp [place, handleCellClick, h1, h2, hm]
  · intro m hm
    refine ⟨findMatchingCard_first s.grid s.lockedCells card.id cellId m hm,
      ?_, ?_, ?_, ?_, ?_⟩
    all_goals simp [place, handleCellClick, h1, h2, hm, mem_lockAdd]

theorem place_matching_pair_locking_witness :
    "cell-1" ∈ (place "cell-1" wineCard trace1).lockedCells ∧
    "cell-0" ∈ (place "cell-1" wineCard trace1).lockedCells :=
  ⟨((place_matching_pair_locking trace1 "cell-1" wineCard (by decide) (by decide)).2
      "cell-0" (by decide)).2.1,
   ((place_matching_pair_locking trace1 "cell-1" wineCard (by decide) (by decide)).2
      "cell-0" (by decide)).2.2.1⟩

/-- C8: toggleLock on a locked cell clears that cell's lock flag and,
unless the occupant has id "lock", also the lock flag of the first locked
cell in store iteration order holding a token with the same id; the Grid
Store and the History Log are left entirely unchanged, so no history
entry is ever appended. -/
theorem toggleLock_unlocks_cell_and_partner (s : AppState) (cellId : String)
    (h : cellId ∈ s.lockedCells) :
    (handleDoubleClick cellId s).grid = s.grid ∧
    (handleDoubleClick cellId s).history = s.history ∧
    cellId ∉ (handleDoubleClick cellId s).lockedCells ∧
    (lookupGrid s.grid cellId = none →
      (handleDoubleClick cellId s).lockedCells = lockDel s.lockedCells cellId) ∧
    (∀ card, lookupGrid s.grid cellId = some card → card.id = "lock" →
      (handleDoubleClick cellId s).lockedCells = lockDel s.lockedCells cellId) ∧
    (∀ card, lookupGrid s.grid cellId = some card → card.id ≠ "lock" →
      (findLockedMatchingCard s.grid s.lockedCells card.id cellId = none →
        (∀ p ∈ s.grid, ¬ lockedMatch s.lockedCells card.id cellId p) ∧
        (handleDoubleClick cellId s).lockedCells = lockDel s.lockedCells cellId) ∧
      (∀ m, findLockedMatchingCard s.grid s.lockedCells card.id cellId = some m →
        (∃ pre v post, s.grid = pre ++ (m, v) :: post ∧
          lockedMatch s.lockedCells card.id cellId (m, v) ∧
          ∀ p ∈ pre, ¬ lockedMatch s.lockedCells card.id cellId p) ∧
        (handleDoubleClick cellId s).lockedCells =
          lockDel (lockDel s.lockedCells cellId) m)) := by
  refine ⟨?_, ?_, ?_, ?_, ?_, ?_⟩
  · simp [handleDoubleClick, h]
  · simp [handleDoubleClick, h]
  · simp only [handleDoubleClick, if_pos h]
    cases hcard : lookupGrid s.grid cellId with
    | none =>
      simp [hcard, mem_lockDel]
    | some card =>
      by_cases hid : card.id = "lock"
      · simp [hcard, hid, mem_lockDel]
      · cases hfind : findLockedMatchingCard s.grid s.lockedCells card.id cellId with
        | none => simp [hcard, hid, hfind, mem_lockDel]
        | some m =>
          simp only [hcard, hid, hfind, if_neg hid]
          intro hmem
          exact (((mem_lockDel _ _ _).mp ((mem_lockDel _ _ _).mp hmem).1).2) rfl
  · intro hcard
    simp [handleDoubleClick, h, hcard]
  · intro card hcard hid
    simp [handleDoubleClick, h, hcard, hid]
  · intro card hcard hid
    constructor
    · intro hfind
      exact ⟨(findLockedMatchingCard_eq_none_iff s.grid s.lockedCells card.id cellId).mp hfind,
        by simp [handleDoubleClick, h, hcard, hid, hfind]⟩
    · intro m hfind
      exact ⟨findLockedMatchingCard_first s.grid s.lockedCells card.id cellId m hfind,
        by simp [handleDoubleClick, h, hcard, hid, hfind]⟩

theorem toggleLock_unlocks_cell_and_partner_witness :
    (handleDoubleClick "cell-0" trace2).grid = trace2.grid ∧
    (handleDoubleClick "cell-0" trace2).history = trace2.history ∧
    "cell-0" ∉ (handleDoubleClick "cell-0" trace2).lockedCells :=
  ⟨(toggleLock_unlocks_cell_and_partner trace2 "cell-0" (by decide)).1,
   (toggleLock_unlocks_cell_and_partner trace2 "cell-0" (by decide)).2.1,
   (toggleLock_unlocks_cell_and_partner trace2 "cell-0" (by decide)).2.2.1⟩

/-- Catalog token ids are pairwise distinct, so the drag path's catalog
search by id recovers exactly the dragged token. -/
theorem find_catalog_by_id_self (card : CardIcon) (h : card ∈ CARD_ICONS) :
    List.find? (fun c => c.id == card.id) CARD_ICONS = some card := by
  fin_cases h <;> rfl

/-- The drag-release body and the click-to-place body perform the same
transition of the (Grid Store, Lock Set, History Log) triple. -/
theorem dragEnd_eq_click_core (s : AppState) (cellId activeId : String) (card : CardIcon)
    (hfind : List.find? (fun c => c.id == activeId) CARD_ICONS = some card) :
    coreOf (handleDragEnd activeId (some cellId) s) =
    coreOf (handleCellClick cellId { s with selectedCard := some card }) := by
  by_cases hlock : cellId ∈ s.lockedCells
  · simp [handleDragEnd, hfind, handleCellClick, coreOf, hlock]
  · by_cases hid : card.id = "lock"
    · simp [handleDragEnd, hfind, handleCellClick, coreOf, hlock, hid]
    · cases hfm : findMatchingCard s.grid s.lockedCells card.id cellId with
      | none => simp [handleDragEnd, hfind, handleCellClick, coreOf, hlock, hid, hfm]
      | some m => simp [handleDragEnd, hfind, handleCellClick, coreOf, hlock, hid, hfm]

/-- C9: for every cell and every catalog token, dropping the token on the
cell and click-placing the token on the cell produce exactly the same
transition of the (Grid Store, Lock Set, History Log) triple. -/
theorem drag_and_click_paths_equivalent (s : AppState) (cellId : String)
    (card : CardIcon) (h : card ∈ CARD_ICONS) :
    coreOf (handleDragEnd card.id (some cellId) s) =
    coreOf (handleCellClick cellId { s with selectedCard := some card }) :=
  dragEnd_eq_click_core s cellId card.id card (find_catalog_by_id_self card h)

theorem drag_and_click_paths_equivalent_witness :
    coreOf (handleDragEnd wineCard.id (some "cell-0") initState) =
    coreOf (handleCellClick "cell-0" { initState with selectedCard := some wineCard }) :=
  drag_and_click_paths_equivalent initState "cell-0" wineCard (by decide)

/-! ## Reachability invariant: every locked cell is occupied -/

/-- Induction invariant: every locked cell is occupied, and every history
entry carries a wasLocked tag (the code always writes wasLocked: false). -/
def StoreInv (s : AppState) : Prop :=
  (∀ c ∈ s.lockedCells, (lookupGrid s.grid c).isSome = true) ∧
  (∀ e ∈ s.history, e.wasLocked ≠ none)

theorem storeInv_of_coreOf_eq {a b : AppState} (h : coreOf a = coreOf b)
    (hb : StoreInv b) : StoreInv a := by
  have hg : a.grid = b.grid := congrArg (fun t => t.1) h
  have hl : a.lockedCells = b.lockedCells := congrArg (fun t => t.2.1) h
  have hh : a.history = b.history := congrArg (fun t => t.2.2) h
  obtain ⟨h1, h2⟩ := hb
  exact ⟨fun c hc => hg ▸ h1 c (hl ▸ hc), fun e he => h2 e (hh ▸ he)⟩

theorem click_preserves_inv (cellId : String) (s : AppState) (h : StoreInv s) :
    StoreInv (handleCellClick cellId s) := by
  obtain ⟨hlo, hht⟩ := h
  cases hsel : s.selectedCard with
  | none => simpa [handleCellClick, hsel] using And.intro hlo hht
  | some card =>
    by_cases hlock : cellId ∈ s.lockedCells
    · simpa [handleCellClick, hsel, hlock] using And.intro hlo hht
    · by_cases hid : card.id = "lock"
      · simp only [handleCellClick, hsel, if_neg hlock, if_pos hid]
        refine ⟨?_, ?_⟩
        · intro c hc
          rw [lookupGrid_setGrid]
          by_cases hcc : c = cellId
          · simp [hcc]
          · rw [if_neg hcc]
            rcases (mem_lockAdd _ _ _).mp hc with h1 | rfl
            · exact hlo c h1
            · exact absurd rfl hcc
        · intro e he
          rcases List.mem_append.mp he with h1 | h2
          · exact hht e h1
          · rw [List.mem_singleton.mp h2]
            simp
      · cases hfm : findMatchingCard s.grid s.lockedCells card.id cellId with
        | some m =>
          simp only [handleCellClick, hsel, if_neg hlock, if_neg hid, hfm]
          refine ⟨?_, ?_⟩
          · intro c hc
            rw [lookupGrid_setGrid]
            by_cases hcc : c = cellId
            · simp [hcc]
            · rw [if_neg hcc]
              rcases (mem_lockAdd _ _ _).mp hc with h1 | rfl
              · rcases (mem_lockAdd _ _ _).mp h1 with h2 | rfl
                · exact hlo c h2
                · exact absurd rfl hcc
              · obtain ⟨v, hv⟩ := findMatchingCard_mem s.grid s.lockedCells card.id cellId c hfm
                exact lookupGrid_isSome_of_mem s.grid c v hv
          · intro e he
            rcases List.mem_append.mp he with h1 | h2
            · exact hht e h1
            · rw [List.mem_singleton.mp h2]
              simp
        | none =>
          simp only [handleCellClick, hsel, if_neg hlock, if_neg hid, hfm]
          refine ⟨?_, ?_⟩
          · intro c hc
            rw [lookupGrid_setGrid]
            by_cases hcc : c = cellId
            · simp [hcc]
            · rw [if_neg hcc]
              exact hlo c hc
          · intro e he
            rcases List.mem_append.mp he with h1 | h2
            · exact hht e h1
            · rw [List.mem_singleton.mp h2]
              simp

theorem remove_preserves_inv (cellId : String) (s : AppState) (h : StoreInv s) :
    StoreInv (handleRemoveCard cellId s) := by
  obtain ⟨hlo, hht⟩ := h
  cases hcard : lookupGrid s.grid cellId with
  | none => simpa [handleRemoveCard, hcard] using And.intro hlo hht
  | some card =>
    by_cases hlock : cellId ∈ s.lockedCells
    · simpa [handleRemoveCard, hcard, hlock] using And.intro hlo hht
    · simp only [handleRemoveCard, hcard, if_neg hlock]
      refine ⟨?_, ?_⟩
      · intro c hc
        have hcl : c ∈ s.lockedCells := by
          cases hfind : findLockedMatchingCard s.grid s.lockedCells card.id cellId with
          | none => simpa [hfind] using hc
          | some m => exact ((mem_lockDel _ _ _).mp (by simpa [hfind] using hc)).1
        have hne : c ≠ cellId := fun hcc => hlock (hcc ▸ hcl)
        rw [lookupGrid_delGrid, if_neg hne]
        exact hlo c hcl
      · intro e he
        rcases List.mem_append.mp he with h1 | h2
        · exact hht e h1
        · rw [List.mem_singleton.mp h2]
          simp

theorem doubleClick_preserves_inv (cellId : String) (s : AppState) (h : StoreInv s) :
    StoreInv (handleDoubleClick cellId s) := by
  obtain ⟨hlo, hht⟩ := h
  by_cases hlock : cellId ∈ s.lockedCells
  · simp only [handleDoubleClick, if_pos hlock]
    refine ⟨?_, hht⟩
    intro c hc
    have hcl : c ∈ s.lockedCells := by
      cases hcard : lookupGrid s.grid cellId with
      | none => exact ((mem_lockDel _ _ _).mp (by simpa [hcard] using hc)).1
      | some card =>
        by_cases hid : card.id = "lock"
        · exact ((mem_lockDel _ _ _).mp (by simpa [hcard, hid] using hc)).1
        · cases hfind : findLockedMatchingCard s.grid s.lockedCells card.id cellId with
          | none => exact ((mem_lockDel _ _ _).mp (by simpa [hcard, hid, hfind] using hc)).1
          | some m =>
            exact ((mem_lockDel _ _ _).mp
              ((mem_lockDel _ _ _).mp (by simpa [hcard, hid, hfind] using hc)).1).1
    exact hlo c hcl
  · simpa [handleDoubleClick, hlock] using And.intro hlo hht

theorem undo_preserves_inv (s : AppState) (h : StoreInv s) :
    StoreInv (handleUndo s) := by
  obtain ⟨hlo, hht⟩ := h
  cases hlast : s.history.getLast? with
  | none => simpa [handleUndo, hlast] using And.intro hlo hht
  | some a =>
    have hamem : a ∈ s.history := mem_of_getLast?_eq_some hlast
    have hpop : ∀ e ∈ s.history.dropLast, e.wasLocked ≠ none :=
      fun e he => hht e (mem_of_mem_dropLast he)
    cases htype : a.type with
    | add =>
      simp only [handleUndo, hlast, htype]
      refine ⟨?_, hpop⟩
      intro c hc
      have hcl : c ∈ s.lockedCells ∧ c ≠ a.cellId := by
        cases hpart : a.lockedCellId with
        | some partner =>
          exact (mem_lockDel _ _ _).mp ((mem_lockDel _ _ _).mp (by simpa [hpart] using hc)).1
        | none =>
          by_cases hcond : a.card.id = "lock" ∨ a.wasLocked ≠ none
          · exact (mem_lockDel _ _ _).mp (by simpa [hpart, hcond] using hc)
          · exact (hcond (Or.inr (hht a hamem))).elim
      rw [lookupGrid_delGrid, if_neg hcl.2]
      exact hlo c hcl.1
    | remove =>
      simp only [handleUndo, hlast, htype]
      refine ⟨?_, hpop⟩
      intro c hc
      rw [lookupGrid_setGrid]
      by_cases hcc : c = a.cellId
      · simp [hcc]
      · rw [if_neg hcc]
        have hcl : c ∈ s.lockedCells := by
          by_cases hwl : a.wasLocked = some true
          · rcases (mem_lockAdd _ _ _).mp (by simpa [hwl] using hc) with h1 | rfl
            · exact h1
            · exact absurd rfl hcc
          · simpa [hwl] using hc
        exact hlo c hcl
    | replace =>
      cases hprev : a.previousCard with
      | none => simpa [handleUndo, hlast, htype, hprev] using And.intro hlo hpop
      | some prev =>
        simp only [handleUndo, hlast, htype, hprev]
        refine ⟨?_, hpop⟩
        intro c hc
        rw [lookupGrid_setGrid]
        by_cases hcc : c = a.cellId
        · simp [hcc]
        · rw [if_neg hcc]
          have hcl : c ∈ s.lockedCells := by
            cases hpart : a.lockedCellId with
            | some partner =>
              exact ((mem_lockDel _ _ _).mp
                ((mem_lockDel _ _ _).mp (by simpa [hpart] using hc)).1).1
            | none =>
              by_cases hcond : a.card.id = "lock" ∨ a.wasLocked ≠ none
              · exact ((mem_lockDel _ _ _).mp (by simpa [hpart, hcond] using hc)).1
              · simpa [hpart, hcond] using hc
          exact hlo c hcl

theorem applyOp_preserves_inv (op : Op) (s : AppState) (h : StoreInv s) :
    StoreInv (applyOp op s) := by
  cases op with
  | selectCard card => exact h
  | clickCell cellId => exact click_preserves_inv cellId s h
  | dragStart activeId => exact h
  | dragEnd activeId overId =>
    cases overId with
    | none => exact h
    | some cellId =>
      cases hfind : List.find? (fun c => c.id == activeId) CARD_ICONS with
      | none => simpa [applyOp, handleDragEnd, hfind] using h
      | some card =>
        exact storeInv_of_coreOf_eq (dragEnd_eq_click_core s cellId activeId card hfind)
          (click_preserves_inv cellId { s with selectedCard := some card } h)
  | removeCard cellId => exact remove_preserves_inv cellId s h
  | doubleClick cellId => exact doubleClick_preserves_inv cellId s h
  | undo => exact undo_preserves_inv s h
  | reset =>
    exact ⟨fun c hc => absurd hc (List.not_mem_nil c),
           fun e he => absurd he (List.not_mem_nil e)⟩
  | layoutChange r c =>
    show StoreInv (handleLayoutChange r c s)
    unfold handleLayoutChange
    split <;> exact h
  | confirmLayout =>
    show StoreInv (confirmLayoutChange s)
    cases hp : s.pendingLayout with
    | none => simpa [confirmLayoutChange, hp] using h
    | some p =>
      simp only [confirmLayoutChange, hp]
      exact ⟨fun c hc => absurd hc (List.not_mem_nil c),
             fun e he => absurd he (List.not_mem_nil e)⟩
  | cancelLayout => exact h

theorem run_preserves_inv (ops : List Op) (s : AppState) (h : StoreInv s) :
    StoreInv (run ops s) := by
  induction ops generalizing s with
  | nil => exact h
  | cons op rest ih => exact ih (applyOp op s) (applyOp_preserves_inv op s h)

/-- C2 amended: in every state reachable from the initial state through
the public operations, every locked cell is occupied in the Grid Store.
The stronger per-claim disjunct (lock-token occupant or another locked
cell with the same token id) is refuted by pairing_symmetry_violated. -/
theorem reachable_locked_cells_occupied (s : AppState) (h : Reachable s) :
    ∀ c ∈ s.lockedCells, (lookupGrid s.grid c).isSome = true := by
  obtain ⟨ops, rfl⟩ := h
  exact (run_preserves_inv ops initState
    ⟨fun c hc => absurd hc (List.not_mem_nil c),
     fun e he => absurd he (List.not_mem_nil e)⟩).1

theorem reachable_locked_cells_occupied_witness :
    (lookupGrid trace2.grid "cell-0").isSome = true :=
  reachable_locked_cells_occupied trace2
    ⟨[Op.selectCard wineCard, Op.clickCell "cell-0",
      Op.selectCard wineCard, Op.clickCell "cell-1"], by decide⟩
    "cell-0" (by decide)
